import Mathlib

/-!
Verification of the WebWhisper chatbot core (console and Streamlit shells).

Text is modelled as `List Char`. The embedded functions mirror the Python
source: `clean_text` (whitespace collapse, strip, truncate to 2000 chars
plus a "..." marker), `ask_model` and its prompt template, the console
dispatch loop in `run_chatbot`, the startup flow of `main` in the console
shell, and the Streamlit session-state actions.
-/

namespace WebWhisper

/-- Whitespace in the sense of the regular expression class \s used by
re.sub in clean_text (ASCII range): space, tab, newline, carriage
return, vertical tab, form feed. -/
def isWS (c : Char) : Bool :=
  c = ' ' || c = '\t' || c = '\n' || c = '\r' || c = '\x0B' || c = '\x0C'

/-- Helper for whitespace collapsing: the Bool flag records whether we are
inside a whitespace run whose single replacement space was already
emitted. Each maximal run of whitespace characters becomes one space,
exactly as re.sub with pattern \s+ and replacement a single space. -/
def collapseAux : Bool → List Char → List Char
  | _, [] => []
  | inRun, c :: cs =>
    if isWS c then
      if inRun then collapseAux true cs else ' ' :: collapseAux true cs
    else c :: collapseAux false cs

/-- Embedding of the statement text = re.sub of \s+ by a single space. -/
def collapseWS (l : List Char) : List Char := collapseAux false l

/-- Embedding of Python str.strip: drop leading and trailing whitespace. -/
def stripWS (l : List Char) : List Char :=
  ((l.dropWhile isWS).reverse.dropWhile isWS).reverse

/-- The truncation marker "..." appended by clean_text. -/
def marker : List Char := ['.', '.', '.']

/-- Body of clean_text generalised over the truncation budget, which is the
fixed constant max_length = 2000 in the source. Mirrors: the falsy check
on the input, whitespace collapse, strip, then truncation to the first
b characters plus the marker when the length exceeds b. -/
def normalize (t : List Char) (b : Nat) : List Char :=
  if t = [] then []
  else if b < (stripWS (collapseWS t)).length then
    (stripWS (collapseWS t)).take b ++ marker
  else stripWS (collapseWS t)

/-- The collapsed, stripped form of the input, named as in the spec
(collapse_whitespace): what clean_text computes before truncation. -/
def collapse_whitespace (t : List Char) : List Char := stripWS (collapseWS t)

/-- Embedding of clean_text. The argument is an Option because the caller
passes either the scraped text or None (scrape_website returns None on
failure); "if not text" in the source is falsy for both None and the
empty string. The budget is the constant 2000 of the source. -/
def clean_text : Option (List Char) → List Char
  | none => []
  | some t => normalize t 2000

/- Helper lemmas about the normalizer. -/

theorem collapse_whitespace_nil : collapse_whitespace [] = [] := rfl

theorem normalize_length_le (t : List Char) (b : Nat) :
    (normalize t b).length ≤ b + marker.length := by
  unfold normalize
  split
  · simp
  · split
    · rename_i h
      have ht : (List.take b (stripWS (collapseWS t))).length ≤ b := by
        simp [List.length_take]
      simp only [List.length_append]
      omega
    · rename_i h h2
      simp only [marker, List.length_cons, List.length_nil]
      omega

theorem normalize_eq_collapse_of_le (t : List Char) (b : Nat)
    (h : (collapse_whitespace t).length ≤ b) :
    normalize t b = collapse_whitespace t := by
  unfold collapse_whitespace at h
  unfold normalize collapse_whitespace
  split
  · rename_i ht
    subst ht
    rfl
  · rw [if_neg (by omega)]

theorem normalize_eq_truncate (t : List Char) (b : Nat)
    (h : b < (collapse_whitespace t).length) :
    normalize t b = (collapse_whitespace t).take b ++ marker := by
  unfold collapse_whitespace at h
  have ht : t ≠ [] := by
    intro he
    subst he
    have : stripWS (collapseWS []) = [] := rfl
    rw [this] at h
    simp at h
  unfold normalize collapse_whitespace
  rw [if_neg ht, if_pos h]

/-- C2: for every input text t and budget b, the length of normalize t b is
at most b plus the marker length, and whenever the collapsed, stripped
form of t fits in the budget, normalize t b is that collapsed form
exactly, with no marker appended. -/
theorem C2_normalize_contract (t : List Char) (b : Nat) :
    (normalize t b).length ≤ b + marker.length ∧
    ((collapse_whitespace t).length ≤ b → normalize t b = collapse_whitespace t) :=
  ⟨normalize_length_le t b, fun h => normalize_eq_collapse_of_le t b h⟩

/-- Witness for C2 at a concrete input with runs of whitespace. -/
theorem C2_normalize_contract_witness :
    (normalize "  a   b ".toList 10).length ≤ 10 + marker.length ∧
    normalize "  a   b ".toList 10 = collapse_whitespace "  a   b ".toList :=
  ⟨(C2_normalize_contract "  a   b ".toList 10).1,
   (C2_normalize_contract "  a   b ".toList 10).2 (by decide)⟩

/-- C3: the normalizer is idempotent on text that is already collapsed and
already within the budget. -/
theorem C3_normalize_idempotent (t : List Char) (b : Nat)
    (h1 : collapse_whitespace t = t) (h2 : t.length ≤ b) :
    normalize (normalize t b) b = normalize t b := by
  have e : normalize t b = t := by
    have := normalize_eq_collapse_of_le t b (by rw [h1]; exact h2)
    rw [h1] at this
    exact this
  simp [e]

/-- Witness for C3 at a concrete collapsed short input. -/
theorem C3_normalize_idempotent_witness :
    collapse_whitespace "a b".toList = "a b".toList ∧
    ("a b".toList).length ≤ 5 ∧
    normalize (normalize "a b".toList 5) 5 = normalize "a b".toList 5 :=
  ⟨by decide, by decide, C3_normalize_idempotent "a b".toList 5 (by decide) (by decide)⟩

/-- C10: clean_text is total at its public interface: a missing input
(None) and the empty string both yield the empty string rather than an
error, so every fetch result maps to a string. -/
theorem C10_clean_text_total :
    clean_text none = [] ∧ clean_text (some []) = [] :=
  ⟨rfl, rfl⟩

/- Helper lemmas for inputs without whitespace. -/

theorem dropWhile_eq_self_of_all_false (p : Char → Bool) (l : List Char)
    (h : ∀ x ∈ l, p x = false) : l.dropWhile p = l := by
  cases l with
  | nil => rfl
  | cons a l => simp [List.dropWhile_cons, h a (by simp)]

theorem collapseAux_eq_self_of_no_ws (b : Bool) (l : List Char)
    (h : ∀ x ∈ l, isWS x = false) : collapseAux b l = l := by
  induction l generalizing b with
  | nil => rfl
  | cons a l ih =>
    simp only [collapseAux, h a (by simp), Bool.false_eq_true, if_false]
    rw [ih false (fun x hx => h x (by simp [hx]))]

theorem stripWS_eq_self_of_no_ws (l : List Char)
    (h : ∀ x ∈ l, isWS x = false) : stripWS l = l := by
  unfold stripWS
  rw [dropWhile_eq_self_of_all_false isWS l h,
      dropWhile_eq_self_of_all_false isWS l.reverse
        (fun x hx => h x (List.mem_reverse.mp hx)),
      List.reverse_reverse]

theorem collapse_whitespace_eq_self_of_no_ws (l : List Char)
    (h : ∀ x ∈ l, isWS x = false) : collapse_whitespace l = l := by
  unfold collapse_whitespace collapseWS
  rw [collapseAux_eq_self_of_no_ws false l h, stripWS_eq_self_of_no_ws l h]

theorem no_ws_replicate (n : Nat) (c : Char) (hc : isWS c = false) :
    ∀ x ∈ List.replicate n c, isWS x = false := by
  intro x hx
  rw [List.eq_of_mem_replicate hx]
  exact hc

/-- C1 fails as stated: on an input of 2001 non-whitespace characters, the
stored context has length 2003, which exceeds the truncation budget of
2000, because the marker is appended after taking the first 2000
characters. -/
theorem C1_counterexample :
    ¬ ((clean_text (some (List.replicate 2001 'a'))).length ≤ 2000) := by
  have hws := no_ws_replicate 2001 'a' (by decide)
  have hcol : collapse_whitespace (List.replicate 2001 'a') = List.replicate 2001 'a' :=
    collapse_whitespace_eq_self_of_no_ws _ hws
  have hne : List.replicate 2001 'a' ≠ [] := by
    intro h
    have h2 := congrArg List.length h
    rw [List.length_replicate, List.length_nil] at h2
    omega
  have hlen : (collapse_whitespace (List.replicate 2001 'a')).length = 2001 := by
    rw [hcol, List.length_replicate]
  have e : clean_text (some (List.replicate 2001 'a')) =
      (collapse_whitespace (List.replicate 2001 'a')).take 2000 ++ marker := by
    have := normalize_eq_truncate (List.replicate 2001 'a') 2000 (by omega)
    exact this
  rw [e]
  simp only [List.length_append, List.length_take, hlen]
  decide

/-- C1 amended: the stored context never exceeds the budget plus the marker
length (2000 + 3 characters); when the collapsed length exceeds the
budget, the stored context is the first 2000 characters of the collapsed
text with the truncation marker appended. -/
theorem C1_context_budget (t : List Char) :
    (clean_text (some t)).length ≤ 2000 + marker.length ∧
    (2000 < (collapse_whitespace t).length →
      clean_text (some t) = (collapse_whitespace t).take 2000 ++ marker) :=
  ⟨normalize_length_le t 2000, fun h => normalize_eq_truncate t 2000 h⟩

/-- Witness for the amended C1 at an input of 2001 non-whitespace chars. -/
theorem C1_context_budget_witness :
    (clean_text (some (List.replicate 2001 'b'))).length ≤ 2000 + marker.length ∧
    clean_text (some (List.replicate 2001 'b')) =
      (collapse_whitespace (List.replicate 2001 'b')).take 2000 ++ marker :=
  ⟨(C1_context_budget (List.replicate 2001 'b')).1,
   (C1_context_budget (List.replicate 2001 'b')).2 (by
    rw [collapse_whitespace_eq_self_of_no_ws _ (no_ws_replicate 2001 'b' (by decide)),
      List.length_replicate]
    omega)⟩

/- Prompt builder and answerer, embedded from ask_model. -/

/-- The apostrophe character, written by code point. -/
def apos : Char := Char.ofNat 39

/-- The fixed fallback message returned when the generated answer strips to
the empty string. -/
def fallbackMessage : List Char :=
  "I couldn".toList ++ [apos] ++
    "t generate a proper answer. Please try rephrasing your question.".toList

/-- The fixed head of the message returned when the model invocation
raises; the exception text follows it. -/
def errorMsgStart : List Char := "❌ Error generating response: ".toList

/-- The prompt template of ask_model: directive sentence, labeled website
content section holding the context verbatim, labeled question section
holding the question verbatim, and the trailing Answer cue. -/
def build_prompt (context question : List Char) : List Char :=
  "Based on the following website content, answer the question.\n\nWebsite Content:\n".toList
    ++ context
    ++ "\n\nQuestion: ".toList
    ++ question
    ++ "\n\nAnswer:".toList

/-- Embedding of ask_model. The model pipeline is abstracted as a function
gen from the prompt to either the generated text or an exception text
(the except-branch of the source). The generated text is stripped; an
empty result is replaced by the fixed fallback message. -/
def ask_model (question context : List Char)
    (gen : List Char → Except (List Char) (List Char)) : List Char :=
  match gen (build_prompt context question) with
  | Except.error e => errorMsgStart ++ e
  | Except.ok g => if stripWS g = [] then fallbackMessage else stripWS g

/-- C5: the prompt always contains the context and the question verbatim as
contiguous substrings, contains the directive sentence and the labeled
context and question sections, and ends with the Answer cue with
nothing after it. -/
theorem C5_prompt_structure (c q : List Char) :
    (∃ x y, build_prompt c q = x ++ c ++ y) ∧
    (∃ x y, build_prompt c q = x ++ q ++ y) ∧
    (∃ y, build_prompt c q =
      "Based on the following website content, answer the question.".toList ++ y) ∧
    (∃ x y, build_prompt c q = x ++ ("Website Content:\n".toList ++ c) ++ y) ∧
    (∃ x y, build_prompt c q = x ++ ("Question: ".toList ++ q) ++ y) ∧
    (∃ x, build_prompt c q = x ++ "Answer:".toList) := by
  refine ⟨?_, ?_, ?_, ?_, ?_, ?_⟩
  · refine ⟨"Based on the following website content, answer the question.\n\nWebsite Content:\n".toList,
      "\n\nQuestion: ".toList ++ q ++ "\n\nAnswer:".toList, ?_⟩
    simp [build_prompt, List.append_assoc]
  · refine ⟨"Based on the following website content, answer the question.\n\nWebsite Content:\n".toList
      ++ c ++ "\n\nQuestion: ".toList, "\n\nAnswer:".toList, ?_⟩
    simp [build_prompt, List.append_assoc]
  · refine ⟨"\n\nWebsite Content:\n".toList ++ c ++ "\n\nQuestion: ".toList ++ q ++
      "\n\nAnswer:".toList, ?_⟩
    simp [build_prompt, List.append_assoc]
  · refine ⟨"Based on the following website content, answer the question.\n\n".toList,
      "\n\nQuestion: ".toList ++ q ++ "\n\nAnswer:".toList, ?_⟩
    simp [build_prompt, List.append_assoc]
  · refine ⟨"Based on the following website content, answer the question.\n\nWebsite Content:\n".toList
      ++ c ++ "\n\n".toList, "\n\nAnswer:".toList, ?_⟩
    simp [build_prompt, List.append_assoc]
  · refine ⟨"Based on the following website content, answer the question.\n\nWebsite Content:\n".toList
      ++ c ++ "\n\nQuestion: ".toList ++ q ++ "\n\n".toList, ?_⟩
    simp [build_prompt, List.append_assoc]

/- Console session loop, embedded from run_chatbot and main. -/

/-- Result of the dispatch performed on each console input line. -/
inductive Action where
  | exitSession : Action
  | showHelp : Action
  | warnEmpty : Action
  | answer : List Char → Action
deriving DecidableEq

/-- Embedding of Python str.lower on a list of characters. -/
def lowerStr (l : List Char) : List Char := l.map Char.toLower

/-- The dispatch of the console loop body: strip the input line, compare
its lowercase form against exit, then help, then check for emptiness,
otherwise treat the stripped line as a question. Mirrors the order of
the checks in run_chatbot. -/
def dispatch (line : List Char) : Action :=
  if lowerStr (stripWS line) = "exit".toList then Action.exitSession
  else if lowerStr (stripWS line) = "help".toList then Action.showHelp
  else if stripWS line = [] then Action.warnEmpty
  else Action.answer (stripWS line)

/-- Observable events of one console session. -/
inductive Event where
  | farewell : Event
  | helpShown : Event
  | emptyWarning : Event
  | answered : List Char → Event
deriving DecidableEq

/-- Embedding of the run_chatbot loop over a finite stream of input lines
(the real loop blocks on stdin; a finite list models the lines typed
before the stream ends). Produces the visible events in order; the exit
command prints the farewell and ends the loop. -/
def run_chatbot (context : List Char)
    (gen : List Char → Except (List Char) (List Char)) :
    List (List Char) → List Event
  | [] => []
  | line :: rest =>
    match dispatch line with
    | Action.exitSession => [Event.farewell]
    | Action.showHelp => Event.helpShown :: run_chatbot context gen rest
    | Action.warnEmpty => Event.emptyWarning :: run_chatbot context gen rest
    | Action.answer q =>
      Event.answered (ask_model q context gen) :: run_chatbot context gen rest

/-- The prompts passed to the generation pipeline by the loop, in order:
exactly one per input line dispatched as a question, none for exit,
help or empty lines. -/
def chatbotGenCalls (context : List Char) : List (List Char) → List (List Char)
  | [] => []
  | line :: rest =>
    match dispatch line with
    | Action.exitSession => []
    | Action.showHelp => chatbotGenCalls context rest
    | Action.warnEmpty => chatbotGenCalls context rest
    | Action.answer q => build_prompt context q :: chatbotGenCalls context rest

/-- External calls of the console main flow: initializing the model
pipeline, and one generation call per answered question. -/
inductive ExtCall where
  | modelInit : ExtCall
  | generate : List Char → ExtCall
deriving DecidableEq

/-- Outcome of the console main flow: which abort path was taken, or the
events of the chat session that ran. -/
inductive MainOutcome where
  | abortFetch : MainOutcome
  | abortNoContent : MainOutcome
  | abortModelInit : MainOutcome
  | ranChat : List Event → MainOutcome
deriving DecidableEq

/-- The user-visible message of each abort path of main; the chat path has
no abort message. The model-init message keeps only its fixed head, the
exception text follows it in the source. -/
def outcomeMessage : MainOutcome → Option (List Char)
  | MainOutcome.abortFetch => some "❌ Failed to scrape website. Exiting.".toList
  | MainOutcome.abortNoContent => some "❌ No content extracted from website. Exiting.".toList
  | MainOutcome.abortModelInit => some "❌ Error loading model: ".toList
  | MainOutcome.ranChat _ => none

/-- Embedding of main in the console shell. The fetch result is None when
scrape_website fails; the falsy check on raw_text aborts on None and on
the empty string; an empty cleaned context aborts with the no-content
message; only then is the model pipeline initialized and the chatbot
loop run. The second component lists the external calls made. -/
def consoleMain (fetchResult : Option (List Char)) (modelInitOk : Bool)
    (inputs : List (List Char)) (gen : List Char → Except (List Char) (List Char)) :
    MainOutcome × List ExtCall :=
  match fetchResult with
  | none => (MainOutcome.abortFetch, [])
  | some raw =>
    if raw = [] then (MainOutcome.abortFetch, [])
    else if clean_text (some raw) = [] then (MainOutcome.abortNoContent, [])
    else if modelInitOk then
      (MainOutcome.ranChat (run_chatbot (clean_text (some raw)) gen inputs),
        ExtCall.modelInit :: (chatbotGenCalls (clean_text (some raw)) inputs).map ExtCall.generate)
    else (MainOutcome.abortModelInit, [ExtCall.modelInit])

/-- Fixed generation stub that always succeeds with an empty result. -/
def genOk : List Char → Except (List Char) (List Char) := fun _ => Except.ok []

/-- Fixed generation stub that always raises. -/
def genBoom : List Char → Except (List Char) (List Char) :=
  fun _ => Except.error "boom".toList

/- Helper lemmas for all-whitespace inputs. -/

theorem all_ws_mem (t : List Char) (h : t.all isWS = true) :
    ∀ x ∈ t, isWS x = true := by
  simpa [List.all_eq_true] using h

theorem collapseAux_true_all_ws (t : List Char) (h : ∀ x ∈ t, isWS x = true) :
    collapseAux true t = [] := by
  induction t with
  | nil => rfl
  | cons a l ih =>
    simp only [collapseAux, h a (by simp), if_true]
    exact ih (fun x hx => h x (by simp [hx]))

theorem collapseAux_false_all_ws (t : List Char) (h : ∀ x ∈ t, isWS x = true)
    (ht : t ≠ []) : collapseAux false t = [' '] := by
  cases t with
  | nil => exact absurd rfl ht
  | cons a l =>
    simp only [collapseAux, h a (by simp), if_true, Bool.false_eq_true, if_false]
    rw [collapseAux_true_all_ws l (fun x hx => h x (by simp [hx]))]

theorem stripWS_all_ws (w : List Char) (h : w.all isWS = true) : stripWS w = [] := by
  have h' := all_ws_mem w h
  have h1 : w.dropWhile isWS = [] :=
    List.dropWhile_eq_nil_iff.mpr (by intro x hx; simpa using h' x hx)
  simp [stripWS, h1]

theorem clean_text_all_ws (t : List Char) (h : t.all isWS = true) :
    clean_text (some t) = [] := by
  by_cases ht : t = []
  · subst ht
    rfl
  · have h' := all_ws_mem t h
    have hc : collapseWS t = [' '] := collapseAux_false_all_ws t h' ht
    have hs : stripWS (collapseWS t) = [] := by
      rw [hc]
      decide
    show normalize t 2000 = []
    unfold normalize
    rw [if_neg ht, hs]
    simp

/-- C4: every empty or all-whitespace input cleans to the empty string, and
a nonempty raw input whose cleaned form is empty makes the console
startup abort with the distinct no-content outcome, which carries a
user-visible message, with no external call made. -/
theorem C4_empty_content (t : List Char) (mi : Bool) (inputs : List (List Char))
    (gen : List Char → Except (List Char) (List Char))
    (ht : t.all isWS = true) :
    clean_text (some t) = [] ∧
    (t ≠ [] → consoleMain (some t) mi inputs gen = (MainOutcome.abortNoContent, [])) ∧
    outcomeMessage MainOutcome.abortNoContent ≠ none := by
  have hc := clean_text_all_ws t ht
  refine ⟨hc, fun hne => ?_, by simp [outcomeMessage]⟩
  simp only [consoleMain]
  rw [if_neg hne, if_pos hc]

/-- Witness for C4 at the single-space input. -/
theorem C4_empty_content_witness :
    clean_text (some [' ']) = [] ∧
    ([' '] ≠ ([] : List Char) →
      consoleMain (some [' ']) true [] genOk = (MainOutcome.abortNoContent, [])) ∧
    outcomeMessage MainOutcome.abortNoContent ≠ none :=
  C4_empty_content [' '] true [] genOk (by decide)

/-- C6: dispatch is case-insensitive on the trimmed line: EXIT, Exit and
padded exit all end the loop; an all-whitespace line produces the
warning, triggers no generation call and the loop continues; a line
whose trimmed lowercase form is help shows the help list and the loop
continues. -/
theorem C6_console_dispatch (line w c : List Char) (rest : List (List Char))
    (gen : List Char → Except (List Char) (List Char))
    (hw : w.all isWS = true)
    (hh : lowerStr (stripWS line) = "help".toList) :
    dispatch "EXIT".toList = Action.exitSession ∧
    dispatch "Exit".toList = Action.exitSession ∧
    dispatch " exit ".toList = Action.exitSession ∧
    dispatch w = Action.warnEmpty ∧
    chatbotGenCalls c (w :: rest) = chatbotGenCalls c rest ∧
    dispatch line = Action.showHelp ∧
    run_chatbot c gen (w :: rest) = Event.emptyWarning :: run_chatbot c gen rest ∧
    run_chatbot c gen (line :: rest) = Event.helpShown :: run_chatbot c gen rest ∧
    run_chatbot c gen ("EXIT".toList :: rest) = [Event.farewell] := by
  have hsw : stripWS w = [] := stripWS_all_ws w hw
  have hdw : dispatch w = Action.warnEmpty := by
    unfold dispatch
    rw [hsw]
    decide
  have hdl : dispatch line = Action.showHelp := by
    unfold dispatch
    rw [hh, if_neg (by decide), if_pos rfl]
  have he : dispatch "EXIT".toList = Action.exitSession := by decide
  refine ⟨he, by decide, by decide, hdw, ?_, hdl, ?_, ?_, ?_⟩
  · simp only [chatbotGenCalls, hdw]
  · simp only [run_chatbot, hdw]
  · simp only [run_chatbot, hdl]
  · simp only [run_chatbot, he]

/-- Witness for C6 at concrete lines. -/
theorem C6_console_dispatch_witness :
    dispatch "EXIT".toList = Action.exitSession ∧
    dispatch "Exit".toList = Action.exitSession ∧
    dispatch " exit ".toList = Action.exitSession ∧
    dispatch " ".toList = Action.warnEmpty ∧
    chatbotGenCalls [] (" ".toList :: []) = chatbotGenCalls [] [] ∧
    dispatch " HELP ".toList = Action.showHelp ∧
    run_chatbot [] genOk (" ".toList :: []) = Event.emptyWarning :: run_chatbot [] genOk [] ∧
    run_chatbot [] genOk (" HELP ".toList :: []) = Event.helpShown :: run_chatbot [] genOk [] ∧
    run_chatbot [] genOk ("EXIT".toList :: []) = [Event.farewell] :=
  C6_console_dispatch " HELP ".toList " ".toList [] [] genOk (by decide) (by decide)

/-- C7: a failing turn never ends the session: an answer that strips to the
empty string is replaced by the fixed fallback message, a raised
generation error is returned as the answer text of that turn, and the
loop always proceeds to the remaining inputs after an answered turn. -/
theorem C7_turn_failure_isolated (c raw e line q : List Char)
    (rest : List (List Char))
    (gen : List Char → Except (List Char) (List Char))
    (hraw : stripWS raw = []) (hq : dispatch line = Action.answer q) :
    ask_model q c (fun _ => Except.ok raw) = fallbackMessage ∧
    ask_model q c (fun _ => Except.error e) = errorMsgStart ++ e ∧
    run_chatbot c gen (line :: rest) =
      Event.answered (ask_model q c gen) :: run_chatbot c gen rest := by
  refine ⟨?_, ?_, ?_⟩
  · simp [ask_model, hraw]
  · simp [ask_model]
  · simp only [run_chatbot, hq]

/-- Witness for C7: a whitespace-only generation, a raised generation, and
the loop continuing past the failing turn. -/
theorem C7_turn_failure_isolated_witness :
    ask_model "hi".toList "ctx".toList (fun _ => Except.ok " ".toList) = fallbackMessage ∧
    ask_model "hi".toList "ctx".toList (fun _ => Except.error "boom".toList) =
      errorMsgStart ++ "boom".toList ∧
    run_chatbot "ctx".toList genBoom ("hi".toList :: "ok".toList :: []) =
      Event.answered (ask_model "hi".toList "ctx".toList genBoom) ::
        run_chatbot "ctx".toList genBoom ("ok".toList :: []) :=
  C7_turn_failure_isolated "ctx".toList " ".toList "boom".toList "hi".toList "hi".toList
    ("ok".toList :: []) genBoom (by decide) (by decide)

/-- C8: when the fetch fails or the cleaned content is empty, the console
main flow ends in an abort outcome that carries a user-visible message,
and no external call is made: the model is never initialized and no
generation call happens. -/
theorem C8_startup_abort (fetchResult : Option (List Char)) (mi : Bool)
    (inputs : List (List Char)) (gen : List Char → Except (List Char) (List Char))
    (h : fetchResult = none ∨
      ∃ raw, fetchResult = some raw ∧ clean_text (some raw) = []) :
    (consoleMain fetchResult mi inputs gen).2 = [] ∧
    ((consoleMain fetchResult mi inputs gen).1 = MainOutcome.abortFetch ∨
      (consoleMain fetchResult mi inputs gen).1 = MainOutcome.abortNoContent) ∧
    outcomeMessage (consoleMain fetchResult mi inputs gen).1 ≠ none := by
  rcases h with h | ⟨raw, hf, hc⟩
  · subst h
    exact ⟨rfl, Or.inl rfl, by simp [consoleMain, outcomeMessage]⟩
  · subst hf
    by_cases hr : raw = []
    · have e : consoleMain (some raw) mi inputs gen = (MainOutcome.abortFetch, []) := by
        simp [consoleMain, hr]
      rw [e]
      exact ⟨rfl, Or.inl rfl, by simp [outcomeMessage]⟩
    · have e : consoleMain (some raw) mi inputs gen = (MainOutcome.abortNoContent, []) := by
        simp only [consoleMain]
        rw [if_neg hr, if_pos hc]
      rw [e]
      exact ⟨rfl, Or.inr rfl, by simp [outcomeMessage]⟩

/-- Witness for C8 at a failed fetch. -/
theorem C8_startup_abort_witness :
    (consoleMain none true [] genOk).2 = [] ∧
    ((consoleMain none true [] genOk).1 = MainOutcome.abortFetch ∨
      (consoleMain none true [] genOk).1 = MainOutcome.abortNoContent) ∧
    outcomeMessage (consoleMain none true [] genOk).1 ≠ none :=
  C8_startup_abort none true [] genOk (Or.inl rfl)

/- Streamlit session state, embedded from the interactive shell. -/

/-- Role tag of one stored chat message. -/
inductive Role where
  | user : Role
  | assistant : Role
deriving DecidableEq

/-- One entry of the session message log. -/
structure ChatMsg where
  role : Role
  content : List Char
deriving DecidableEq

/-- The Streamlit session state: the message log, the optional context, the
cached model handle (abstracted to a flag) and the url-loaded flag. -/
structure SessionState where
  messages : List ChatMsg
  context : Option (List Char)
  model_loaded : Bool
  url_loaded : Bool

/-- The Clear Chat button: empties the message log only. -/
def clearChat (s : SessionState) : SessionState :=
  SessionState.mk [] s.context s.model_loaded s.url_loaded

/-- The New Website button: empties the message log, resets the context to
unset and clears the url-loaded flag. -/
def newWebsite (s : SessionState) : SessionState :=
  SessionState.mk [] none s.model_loaded false

/-- The Analyze Website button does the same state reset as New Website. -/
def analyzeWebsite (s : SessionState) : SessionState :=
  SessionState.mk [] none s.model_loaded false

/-- C9: the clear action empties only the Exchange log, preserving the
context and the other fields, while the load-new-source actions reset
the context to unset and empty the Exchange log. -/
theorem C9_ui_frame_effects (s : SessionState) :
    (clearChat s).messages = [] ∧
    (clearChat s).context = s.context ∧
    (clearChat s).url_loaded = s.url_loaded ∧
    (clearChat s).model_loaded = s.model_loaded ∧
    (newWebsite s).messages = [] ∧
    (newWebsite s).context = none ∧
    (analyzeWebsite s).messages = [] ∧
    (analyzeWebsite s).context = none :=
  ⟨rfl, rfl, rfl, rfl, rfl, rfl, rfl, rfl⟩

end WebWhisper
